import Mathlib

/-!
Shallow embedding of `src/index.js` of the stripe-disputes automation:
the `RiskScorer` static class, the `getWeekDateRange` utility, the
`generateCSV` row construction and sort, and the `runWeeklyReport`
orchestration (with the external collaborators abstracted by oracles).
JS numbers appearing in the scoring arithmetic are modelled as `Int`
(all stored values are integers) and `ℚ` (for the two floating-point
divisions `amount / 100` and the millisecond-to-day conversions, which
are exact at every comparison the code makes).
-/

namespace StrDisputes

/-- Card sub-object of `charge.payment_method_details.card`; every field may
be absent (the JS code reads them through optional chaining). -/
structure Card where
  brand : Option String
  funding : Option String
  country : Option String
deriving Repr, DecidableEq

/-- The `payment_method_details` object of a charge. -/
structure PaymentMethodDetails where
  card : Option Card
deriving Repr, DecidableEq

/-- Associated charge (`dispute.charge`); `created` is Unix seconds. -/
structure Charge where
  created : Int
  payment_method_details : Option PaymentMethodDetails
deriving Repr, DecidableEq

/-- A dispute record as consumed by `RiskScorer.calculateRiskScore`.
`currency` and `reason` are `Option String`: the code dereferences
`dispute.currency` without a guard (a missing value throws in JS) while a
missing `reason` merely misses the lookup table. `created` is Unix seconds.
`charge` may be absent (non-expanded fetch). -/
structure Dispute where
  id : String
  amount : Int
  currency : Option String
  reason : Option String
  created : Int
  charge : Option Charge
deriving Repr, DecidableEq

/-- Result of `calculateRiskScore`: the clamped score and the factor strings. -/
structure RiskResult where
  score : Int
  factors : List String
deriving Repr, DecidableEq

/-- The `reasonScores` object literal (lines 57-66): a partial map from the
reason tag to its point value. -/
def reasonScores (r : String) : Option Int :=
  if r = "fraudulent" then some 30
  else if r = "unrecognized" then some 25
  else if r = "duplicate" then some 15
  else if r = "subscription_canceled" then some 10
  else if r = "product_unacceptable" then some 8
  else if r = "product_not_received" then some 6
  else if r = "credit_not_processed" then some 5
  else if r = "general" then some 3
  else none

/-- Line 67: `reasonScores[dispute.reason] || 5` (no table value is falsy,
so `||` is exactly a default for a missed lookup). -/
def reasonScoreOf (reason : Option String) : Int :=
  (reason.bind reasonScores).getD 5

/-- The `zeroDecimalCurrencies` array (line 76, identical copy at line 252). -/
def zeroDecimalCurrencies : List String :=
  ["bif", "clp", "djf", "gnf", "jpy", "kmf", "krw", "mga", "pyg", "rwf",
   "ugx", "vnd", "vuv", "xaf", "xof", "xpf"]

/-- Lines 78-82: zero-decimal currencies keep the raw amount, all others are
divided by 100. -/
def normalizeAmount (currency : String) (amount : Int) : ℚ :=
  if currency ∈ zeroDecimalCurrencies then (amount : ℚ) else (amount : ℚ) / 100

/-- The five currency-scaled thresholds of the amount dimension. -/
structure Thresholds where
  t1000 : ℚ
  t500 : ℚ
  t200 : ℚ
  t100 : ℚ
  t50 : ℚ
deriving Repr, DecidableEq

/-- Lines 86-100: per-currency threshold selection. -/
def amountThresholds (currency : String) : Thresholds :=
  if currency = "jpy" ∨ currency = "krw" then ⟨100000, 50000, 20000, 10000, 5000⟩
  else if currency = "hkd" then ⟨8000, 4000, 1600, 800, 400⟩
  else if currency = "eur" ∨ currency = "gbp" then ⟨900, 450, 180, 90, 45⟩
  else ⟨1000, 500, 200, 100, 50⟩

/-- Lines 102-107: bucket the normalized amount against the thresholds. -/
def bucketAmount (t : Thresholds) (amount : ℚ) : Int :=
  if amount ≥ t.t1000 then 25
  else if amount ≥ t.t500 then 20
  else if amount ≥ t.t200 then 15
  else if amount ≥ t.t100 then 10
  else if amount ≥ t.t50 then 5
  else 2

/-- The complete amount dimension (normalize, select thresholds, bucket). -/
def amountScoreOf (currency : String) (amount : Int) : Int :=
  bucketAmount (amountThresholds currency) (normalizeAmount currency amount)

/-- Line 115: `(Date.now() - chargeDate.getTime()) / (1000*60*60*24)` in days,
with `nowMs` in milliseconds and the charge timestamp in Unix seconds. -/
def accountAgeDays (nowMs chargeCreatedSec : Int) : ℚ :=
  ((nowMs : ℚ) - (chargeCreatedSec : ℚ) * 1000) / 86400000

/-- Lines 117-122: the customer-age bands. -/
def customerScoreOf (nowMs chargeCreatedSec : Int) : Int :=
  let age := accountAgeDays nowMs chargeCreatedSec
  if age < 1 then 20
  else if age < 7 then 15
  else if age < 30 then 10
  else if age < 90 then 5
  else 2

/-- Line 129: days between charge creation and dispute creation. -/
def daysBetween (disputeCreatedSec chargeCreatedSec : Int) : ℚ :=
  ((disputeCreatedSec : ℚ) * 1000 - (chargeCreatedSec : ℚ) * 1000) / 86400000

/-- Lines 131-136: the timing bands. -/
def timingScoreOf (disputeCreatedSec chargeCreatedSec : Int) : Int :=
  let t := daysBetween disputeCreatedSec chargeCreatedSec
  if t < 1 then 15
  else if t < 3 then 12
  else if t < 7 then 8
  else if t < 14 then 5
  else 2

/-- Lines 143-145: `paymentMethodDetails?.card?.field || 'unknown'`. -/
def cardField (pmd : Option PaymentMethodDetails) (f : Card → Option String) : String :=
  ((pmd.bind PaymentMethodDetails.card).bind f).getD "unknown"

/-- Lines 147-152: the payment-method dimension, capped at 10. -/
def paymentScoreOf (pmd : Option PaymentMethodDetails) : Int :=
  let brand := cardField pmd Card.brand
  let funding := cardField pmd Card.funding
  let country := cardField pmd Card.country
  let s1 : Int := if funding = "prepaid" then 5 else 0
  let s2 : Int := if country ≠ "US" ∧ country ≠ "CA" ∧ country ≠ "GB" then 3 else 0
  let s3 : Int := if brand ∈ ["discover", "diners", "jcb"] then 2 else 0
  min (s1 + s2 + s3) 10

/-- Decimal rendering of the JS number shown in the amount factor string
(exact for every value `amount / 100` with an integer `amount`). -/
def decimalString (q : ℚ) : String :=
  if q.den = 1 then toString q.num
  else
    let sign := if q.num < 0 then "-" else ""
    let n := q.num.natAbs * (100 / q.den)
    let frac := n % 100
    let digits :=
      if frac % 10 = 0 then toString (frac / 10)
      else (if frac < 10 then "0" else "") ++ toString frac
    sign ++ toString (n / 100) ++ "." ++ digits

/-- JS `String.prototype.toLowerCase()` on the character data (the currency
codes involved are ASCII, where this is exactly per-character lowercasing). -/
def jsToLowerCase (s : String) : String :=
  String.mk (s.data.map Char.toLower)

/-- JS `String.prototype.toUpperCase()` on the character data. -/
def jsToUpperCase (s : String) : String :=
  String.mk (s.data.map Char.toUpper)

/-- RiskScorer.calculateRiskScore (lines 45-157). Returns `.error` where the
JS code throws (reading `toLowerCase` of an absent `currency`, line 72);
the missing-charge guard (lines 51-54) fires before that read. -/
def calculateRiskScore (nowMs : Int) (d : Dispute) : Except String RiskResult :=
  match d.charge with
  | none => .ok ⟨50, ["Insufficient data for risk analysis"]⟩
  | some charge =>
    match d.currency with
    | none => .error "TypeError: cannot read toLowerCase of undefined"
    | some rawCurrency =>
      let reasonScore := reasonScoreOf d.reason
      let currency := jsToLowerCase rawCurrency
      let amount := normalizeAmount currency d.amount
      let amountScore := bucketAmount (amountThresholds currency) amount
      let customerScore := customerScoreOf nowMs charge.created
      let timingScore := timingScoreOf d.created charge.created
      let paymentScore := paymentScoreOf charge.payment_method_details
      let score := reasonScore + amountScore + customerScore + timingScore + paymentScore
      let reasonText := d.reason.getD "undefined"
      let brand := cardField charge.payment_method_details Card.brand
      let funding := cardField charge.payment_method_details Card.funding
      let country := cardField charge.payment_method_details Card.country
      .ok ⟨min score 100,
        ["Reason: " ++ reasonText ++ " (+" ++ toString reasonScore ++ ")",
         "Amount: " ++ decimalString amount ++ " " ++ jsToUpperCase currency ++
           " (+" ++ toString amountScore ++ ")",
         "Customer age: " ++ toString (Rat.floor (accountAgeDays nowMs charge.created)) ++
           " days (+" ++ toString customerScore ++ ")",
         "Dispute timing: " ++ toString (Rat.floor (daysBetween d.created charge.created)) ++
           " days after charge (+" ++ toString timingScore ++ ")",
         "Payment: " ++ brand ++ "/" ++ funding ++ "/" ++ country ++
           " (+" ++ toString paymentScore ++ ")"]⟩

/-- RiskScorer.getRiskLevel (lines 159-165). -/
def getRiskLevel (score : Int) : String :=
  if score ≥ 80 then "CRITICAL"
  else if score ≥ 60 then "HIGH"
  else if score ≥ 40 then "MEDIUM"
  else if score ≥ 20 then "LOW"
  else "MINIMAL"

/-- The `levels` symbol table of getRiskMeter (lines 168-174). -/
def levelSymbol (level : String) : String :=
  if level = "MINIMAL" then "🔵"
  else if level = "LOW" then "🟢"
  else if level = "MEDIUM" then "🟡"
  else if level = "HIGH" then "🟠"
  else "🔴"

/-- Helper for the JS `'█'.repeat(n)` calls. -/
def repeatChar (c : Char) (n : Nat) : String :=
  String.mk (List.replicate n c)

/-- RiskScorer.getRiskMeter (lines 167-181). -/
def getRiskMeter (score : Int) : String :=
  let level := getRiskLevel score
  let filled := (Int.fdiv score 10).toNat
  let empty := 10 - filled
  levelSymbol level ++ " [" ++ repeatChar '█' filled ++ repeatChar '░' empty ++ "] " ++
    toString score ++ "%"

/-- The fields of a generateCSV row (lines 262-278) that carry data the
scoring and sorting logic produces; the remaining columns are verbatim
copies of record fields or fixed sentinels. -/
structure CsvRow where
  id : String
  dispute_amount : String
  dispute_currency : String
  reason : Option String
  risk_score : Int
  risk_level : String
  risk_meter : String
  risk_factors : String
deriving Repr, DecidableEq

/-- JS `(dispute.amount / 100).toFixed(2)` for an integer `amount`
(line 259): always exactly two fractional digits. -/
def toFixed2 (amount : Int) : String :=
  let n := amount.natAbs
  let sign := if amount < 0 then "-" else ""
  let frac := n % 100
  let fracStr := if frac < 10 then "0" ++ toString frac else toString frac
  sign ++ toString (n / 100) ++ "." ++ fracStr

/-- One iteration of the `disputes.map` body of generateCSV (lines 240-278):
score the record at the sampled `nowMs`, then build the row. The second
`dispute.currency.toLowerCase()` read (line 248) throws for an absent
currency just as the one inside the scorer does. -/
def buildRow (nowMs : Int) (d : Dispute) : Except String CsvRow := do
  let r ← calculateRiskScore nowMs d
  match d.currency with
  | none => .error "TypeError: cannot read toLowerCase of undefined"
  | some rawCurrency =>
    let currency := jsToLowerCase rawCurrency
    let displayAmount :=
      if currency ∈ zeroDecimalCurrencies then toString d.amount else toFixed2 d.amount
    .ok ⟨d.id, displayAmount, currency, d.reason, r.score, getRiskLevel r.score,
      getRiskMeter r.score, String.intercalate "; " r.factors⟩

/-- The `disputes.map` of generateCSV with the call-time sampling of
`Date.now()` made explicit: `clock i` is the instant returned by the
`Date.now()` call inside the scorer for the record at index `i`. -/
def scoreRows (clock : Nat → Int) : Nat → List Dispute → Except String (List CsvRow)
  | _, [] => .ok []
  | i, d :: ds =>
    match buildRow (clock i) d with
    | .error e => .error e
    | .ok row =>
      match scoreRows clock (i + 1) ds with
      | .error e => .error e
      | .ok rest => .ok (row :: rest)

/-- The comparator of line 282, `(a, b) => b.risk_score - a.risk_score`, as
the corresponding merge relation: `a` may stay before `b` exactly when the
comparator is non-positive. -/
def rowLE (a b : CsvRow) : Bool := b.risk_score ≤ a.risk_score

/-- Line 282: `csvData.sort(...)` — JS `Array.prototype.sort` is stable
(ES2019), embedded as a stable merge sort under `rowLE`. -/
def sortRows (rows : List CsvRow) : List CsvRow := rows.mergeSort rowLE

/-- generateCSV's data construction (lines 240-282): map then sort. -/
def generateCSVRows (clock : Nat → Int) (disputes : List Dispute) :
    Except String (List CsvRow) :=
  (scoreRows clock 0 disputes).map sortRows

/-- Outcome of one `runWeeklyReport` invocation. -/
inductive Outcome
  | noop
  | success
  | aborted
deriving Repr, DecidableEq

/-- Oracles for the awaited external collaborators of one run:
the Stripe fetch result (`none` models a rejected fetch), and whether the
CSV write, the Asana upload and the email send succeed. -/
structure Collaborators where
  fetchResult : Option (List Dispute)
  csvOk : Bool
  asanaOk : Bool
  emailOk : Bool

/-- Observable trace of one run: its outcome, which collaborator calls were
made, whether the local CSV artifact was created, and whether
`fs.unlink(fileName)` ran before the run ended. -/
structure RunTrace where
  outcome : Outcome
  csvCreated : Bool
  asanaCalled : Bool
  emailCalled : Bool
  fileRemoved : Bool
deriving Repr, DecidableEq

/-- runWeeklyReport (lines 422-464): fetch; return early on an empty batch;
generate the CSV; upload to Asana; send the email; only then unlink the
local file. The surrounding `try`/`catch` turns any throw into a logged
abort — it contains no cleanup, so a failure after the CSV was written
leaves the file in place. -/
def runWeeklyReport (c : Collaborators) : RunTrace :=
  match c.fetchResult with
  | none => ⟨.aborted, false, false, false, false⟩
  | some disputes =>
    if disputes.isEmpty then ⟨.noop, false, false, false, false⟩
    else if c.csvOk = false then ⟨.aborted, false, false, false, false⟩
    else if c.asanaOk = false then ⟨.aborted, true, true, false, false⟩
    else if c.emailOk = false then ⟨.aborted, true, true, true, false⟩
    else ⟨.success, true, true, true, true⟩

/-- JS `Day(t) = floor(t / msPerDay)`: the epoch day containing instant `t`. -/
def jsDayFromMs (ms : Int) : Int := Int.fdiv ms 86400000

/-- JS `WeekDay(t) = (Day(t) + 4) modulo 7`: 0 is Sunday, 1 is Monday. -/
def jsWeekDay (epochDay : Int) : Int := (epochDay + 4) % 7

/-- getWeekDateRange (lines 185-206), for a server whose local clock runs
`tzOffsetMs` ahead of UTC. `new Date(getUTCFullYear(), getUTCMonth(),
getUTCDate())` is a LOCAL-time constructor, so it denotes the instant
`utcCalendarDay * 86400000 - tzOffsetMs`; `getUTCDay`/`setUTCDate`/
`setUTCHours` then operate on that instant (`setUTCDate(dom - k)` shifts
the epoch day by exactly `-k`). Returns `(startMs, endMs)`. -/
def getWeekDateRange (nowMs tzOffsetMs : Int) : Int × Int :=
  let utcCalendarDay := jsDayFromMs nowMs
  let nowUTCms := utcCalendarDay * 86400000 - tzOffsetMs
  let baseDay := jsDayFromMs nowUTCms
  let dayOfWeek := jsWeekDay baseDay
  let daysToSunday := if dayOfWeek = 0 then 7 else dayOfWeek
  let endDay := baseDay - daysToSunday
  let startDay := endDay - 6
  (startDay * 86400000, endDay * 86400000 + 86399999)

/-! Bounds of the five sub-scores. -/

lemma reasonScoreOf_bounds (r : Option String) :
    3 ≤ reasonScoreOf r ∧ reasonScoreOf r ≤ 30 := by
  cases r with
  | none => simp [reasonScoreOf]
  | some s =>
    unfold reasonScoreOf reasonScores
    simp only [Option.some_bind]
    split_ifs <;> simp

lemma bucketAmount_bounds (t : Thresholds) (a : ℚ) :
    2 ≤ bucketAmount t a ∧ bucketAmount t a ≤ 25 := by
  unfold bucketAmount
  split_ifs <;> omega

lemma amountScoreOf_bounds (c : String) (a : Int) :
    2 ≤ amountScoreOf c a ∧ amountScoreOf c a ≤ 25 :=
  bucketAmount_bounds _ _

lemma customerScoreOf_bounds (nowMs chargeCreatedSec : Int) :
    2 ≤ customerScoreOf nowMs chargeCreatedSec ∧ customerScoreOf nowMs chargeCreatedSec ≤ 20 := by
  unfold customerScoreOf
  dsimp only
  split_ifs <;> omega

lemma timingScoreOf_bounds (disputeCreatedSec chargeCreatedSec : Int) :
    2 ≤ timingScoreOf disputeCreatedSec chargeCreatedSec ∧
      timingScoreOf disputeCreatedSec chargeCreatedSec ≤ 15 := by
  unfold timingScoreOf
  dsimp only
  split_ifs <;> omega

lemma paymentScoreOf_bounds (pmd : Option PaymentMethodDetails) :
    0 ≤ paymentScoreOf pmd ∧ paymentScoreOf pmd ≤ 10 := by
  unfold paymentScoreOf
  dsimp only
  rw [min_def]
  split_ifs <;> omega

/-- Shape of the successful branch of the scorer: with a charge and a
currency present, the result is the capped sum of the five sub-scores
together with exactly five factor strings. -/
lemma calculateRiskScore_ok (nowMs : Int) (d : Dispute) (ch : Charge) (cur : String)
    (hch : d.charge = some ch) (hcur : d.currency = some cur) :
    ∃ fs : List String,
      calculateRiskScore nowMs d =
        .ok ⟨min (reasonScoreOf d.reason + amountScoreOf (jsToLowerCase cur) d.amount +
            customerScoreOf nowMs ch.created + timingScoreOf d.created ch.created +
            paymentScoreOf ch.payment_method_details) 100, fs⟩ ∧
      fs.length = 5 := by
  obtain ⟨id, amount, currency, reason, created, charge⟩ := d
  simp only at hch hcur
  subst hch
  subst hcur
  exact ⟨_, rfl, rfl⟩

/-- C1: with the associated charge and the currency present, the score is an
integer in [0,100] equal to `clamp(sum of the five sub-scores, 0, 100)`, and
each sub-score stays within its documented maximum (reason 30, amount 25,
customer-age 20, timing 15, payment-method 10) before summation. -/
theorem c1_score_is_clamped_sum (nowMs : Int) (d : Dispute) (ch : Charge) (cur : String)
    (hch : d.charge = some ch) (hcur : d.currency = some cur) :
    ∃ r : RiskResult, calculateRiskScore nowMs d = .ok r ∧
      0 ≤ r.score ∧ r.score ≤ 100 ∧
      r.score = max 0 (min (reasonScoreOf d.reason + amountScoreOf (jsToLowerCase cur) d.amount +
          customerScoreOf nowMs ch.created + timingScoreOf d.created ch.created +
          paymentScoreOf ch.payment_method_details) 100) ∧
      reasonScoreOf d.reason ≤ 30 ∧
      amountScoreOf (jsToLowerCase cur) d.amount ≤ 25 ∧
      customerScoreOf nowMs ch.created ≤ 20 ∧
      timingScoreOf d.created ch.created ≤ 15 ∧
      paymentScoreOf ch.payment_method_details ≤ 10 := by
  obtain ⟨hr1, hr2⟩ := reasonScoreOf_bounds d.reason
  obtain ⟨ha1, ha2⟩ := amountScoreOf_bounds (jsToLowerCase cur) d.amount
  obtain ⟨hc1, hc2⟩ := customerScoreOf_bounds nowMs ch.created
  obtain ⟨ht1, ht2⟩ := timingScoreOf_bounds d.created ch.created
  obtain ⟨hp1, hp2⟩ := paymentScoreOf_bounds ch.payment_method_details
  obtain ⟨fs, heq, -⟩ := calculateRiskScore_ok nowMs d ch cur hch hcur
  refine ⟨_, heq, ?_, ?_, ?_, hr2, ha2, hc2, ht2, hp2⟩ <;> dsimp only <;> omega

/-- Concrete instantiation of `c1_score_is_clamped_sum`. -/
def c1Charge : Charge := ⟨0, none⟩

/-- Concrete dispute with charge and currency present, for the C1 witness. -/
def c1Dispute : Dispute := ⟨"dp_1", 100000, some "usd", some "fraudulent", 0, some c1Charge⟩

/-- Witness for C1 at a concrete dispute. -/
theorem c1_score_is_clamped_sum_witness :
    ∃ r : RiskResult, calculateRiskScore 0 c1Dispute = .ok r ∧
      0 ≤ r.score ∧ r.score ≤ 100 ∧
      r.score = max 0 (min (reasonScoreOf c1Dispute.reason +
          amountScoreOf (jsToLowerCase "usd") c1Dispute.amount +
          customerScoreOf 0 c1Charge.created + timingScoreOf c1Dispute.created c1Charge.created +
          paymentScoreOf c1Charge.payment_method_details) 100) ∧
      reasonScoreOf c1Dispute.reason ≤ 30 ∧
      amountScoreOf (jsToLowerCase "usd") c1Dispute.amount ≤ 25 ∧
      customerScoreOf 0 c1Charge.created ≤ 20 ∧
      timingScoreOf c1Dispute.created c1Charge.created ≤ 15 ∧
      paymentScoreOf c1Charge.payment_method_details ≤ 10 :=
  c1_score_is_clamped_sum 0 c1Dispute c1Charge "usd" rfl rfl

/-- C2: a dispute whose associated charge is absent is assessed without an
error, with score exactly 50 and exactly one factor string. -/
theorem c2_missing_charge_fallback (nowMs : Int) (d : Dispute) (h : d.charge = none) :
    ∃ r : RiskResult, calculateRiskScore nowMs d = .ok r ∧
      r.score = 50 ∧ r.factors.length = 1 := by
  obtain ⟨id, amount, currency, reason, created, charge⟩ := d
  simp only at h
  subst h
  exact ⟨_, rfl, rfl, rfl⟩

/-- Concrete chargeless dispute for the C2 witness. -/
def c2Dispute : Dispute := ⟨"dp_2", 5000, some "usd", some "general", 0, none⟩

/-- Witness for C2 at a concrete chargeless dispute. -/
theorem c2_missing_charge_fallback_witness :
    ∃ r : RiskResult, calculateRiskScore 0 c2Dispute = .ok r ∧
      r.score = 50 ∧ r.factors.length = 1 :=
  c2_missing_charge_fallback 0 c2Dispute rfl

/-- C10: with a charge present but the currency absent, the scorer is not
total — it fails (the JS code throws reading `toLowerCase` of `undefined`)
instead of returning an assessment. -/
theorem c10_missing_currency_throws (nowMs : Int) (d : Dispute) (ch : Charge)
    (hch : d.charge = some ch) (hcur : d.currency = none) :
    ∃ e : String, calculateRiskScore nowMs d = .error e := by
  obtain ⟨id, amount, currency, reason, created, charge⟩ := d
  simp only at hch hcur
  subst hch
  subst hcur
  exact ⟨_, rfl⟩

/-- Concrete currency-less dispute (charge present) for the C10 witness. -/
def c10Dispute : Dispute := ⟨"dp_10", 5000, none, some "general", 0, some ⟨0, none⟩⟩

/-- Witness for C10 at a concrete currency-less dispute. -/
theorem c10_missing_currency_throws_witness :
    ∃ e : String, calculateRiskScore 0 c10Dispute = .error e :=
  c10_missing_currency_throws 0 c10Dispute ⟨0, none⟩ rfl rfl

/-- C4 (code bug): at now = 2025-06-30 08:00:00 UTC — a Monday, epoch day
20269 — on a server whose local clock runs two hours ahead of UTC (e.g.
Europe/Berlin in summer, the timezone the job's cron is pinned to),
`getWeekDateRange` returns the window 2025-06-16T00:00:00Z through
2025-06-22T23:59:59.999Z, one full week earlier than the immediately
preceding completed week 2025-06-23 through 2025-06-29, which the same
code computes when the offset is zero: `new Date(y, m, d)` is a local-time
constructor, contradicting the code's own comment that it works "with UTC
dates to ensure consistency regardless of server timezone". -/
theorem c4_window_depends_on_timezone :
    jsWeekDay 20269 = 1 ∧
    getWeekDateRange (20269 * 86400000 + 8 * 3600000) 7200000 =
      (20255 * 86400000, 20261 * 86400000 + 86399999) ∧
    getWeekDateRange (20269 * 86400000 + 8 * 3600000) 0 =
      (20262 * 86400000, 20268 * 86400000 + 86399999) := by
  refine ⟨by decide, by decide, by decide⟩

/-- Collaborator oracles for a run whose email send fails after the CSV was
written and the Asana upload succeeded. -/
def c3Collab : Collaborators := ⟨some [c2Dispute], true, true, false⟩

/-- C3 counterexample: a run that creates the CSV and then fails at the email
step ends (aborted) with the local file still present — the cleanup is not
on all exit paths. -/
theorem c3_counterexample :
    (runWeeklyReport c3Collab).csvCreated = true ∧
    (runWeeklyReport c3Collab).outcome = Outcome.aborted ∧
    (runWeeklyReport c3Collab).fileRemoved = false := by
  decide

/-- C3 amended: the transient CSV artifact is removed exactly on the fully
successful path; a run that fails after creation (Asana upload or email
send throws) ends with the file still present. -/
theorem c3_cleanup_only_on_success (c : Collaborators) :
    ((runWeeklyReport c).fileRemoved = true ↔ (runWeeklyReport c).outcome = Outcome.success) ∧
    ((runWeeklyReport c).csvCreated = true ∧ (runWeeklyReport c).outcome = Outcome.aborted →
      (runWeeklyReport c).fileRemoved = false) := by
  rcases c with ⟨fetch, csvOk, asanaOk, emailOk⟩
  cases fetch with
  | none => simp [runWeeklyReport]
  | some ds =>
    simp only [runWeeklyReport]
    split_ifs <;> simp

/-- Witness for the amended C3 statement at the email-failure oracle. -/
theorem c3_cleanup_only_on_success_witness :
    ((runWeeklyReport c3Collab).fileRemoved = true ↔
      (runWeeklyReport c3Collab).outcome = Outcome.success) ∧
    ((runWeeklyReport c3Collab).csvCreated = true ∧
        (runWeeklyReport c3Collab).outcome = Outcome.aborted →
      (runWeeklyReport c3Collab).fileRemoved = false) :=
  c3_cleanup_only_on_success c3Collab

/-- C9: a fetch that returns zero disputes ends the run as a successful
no-op — no CSV is created, no Asana call is made, no email is sent, and
no cleanup runs. -/
theorem c9_empty_fetch_noop (c : Collaborators) (h : c.fetchResult = some []) :
    runWeeklyReport c = ⟨Outcome.noop, false, false, false, false⟩ := by
  rcases c with ⟨fetch, csvOk, asanaOk, emailOk⟩
  simp only at h
  subst h
  rfl

/-- Collaborator oracles for an empty fetch. -/
def c9Collab : Collaborators := ⟨some [], true, true, true⟩

/-- Witness for C9 at the empty-fetch oracle. -/
theorem c9_empty_fetch_noop_witness :
    runWeeklyReport c9Collab = ⟨Outcome.noop, false, false, false, false⟩ :=
  c9_empty_fetch_noop c9Collab rfl

/-- C6 counterexample: with payment-method details entirely absent (all three
card fields default to "unknown"), the payment sub-score is 3, not 0 —
an absent/unknown card country is treated as the matching case of the +3
outside-the-low-risk-set rule, so it contributes 3 points. -/
theorem c6_counterexample :
    paymentScoreOf none = 3 ∧
    paymentScoreOf (some ⟨some ⟨none, none, none⟩⟩) = 3 := by
  decide

/-- C6 amended: the payment sub-score never fails and equals the capped sum
in which a missing/unknown funding or brand awards no points, while a
missing/unknown card country is treated as outside the low-risk set and
awards the 3 country points. -/
theorem c6_payment_missing_fields (pmd : Option PaymentMethodDetails) :
    paymentScoreOf pmd =
      min ((if (pmd.bind PaymentMethodDetails.card).bind Card.funding = some "prepaid"
              then (5 : Int) else 0) +
           (if (pmd.bind PaymentMethodDetails.card).bind Card.country ∈
                ([some "US", some "CA", some "GB"] : List (Option String))
              then (0 : Int) else 3) +
           (if (pmd.bind PaymentMethodDetails.card).bind Card.brand ∈
                ([some "discover", some "diners", some "jcb"] : List (Option String))
              then (2 : Int) else 0)) 10 := by
  rcases pmd with _ | ⟨card⟩
  · decide
  · rcases card with _ | ⟨b, f, c⟩
    · decide
    · rcases b with _ | b <;> rcases f with _ | f <;> rcases c with _ | c <;>
        simp only [paymentScoreOf, cardField, Option.some_bind, Option.none_bind,
          Option.getD_some, Option.getD_none, List.mem_cons, List.mem_singleton,
          List.not_mem_nil, or_false, Option.some.injEq, reduceCtorEq, false_or] <;>
        split_ifs <;> first | rfl | tauto

/-- C5: amount normalization — a currency in the fixed zero-decimal set keeps
the raw amount unchanged before threshold bucketing, every other currency is
divided by 100; at the claim's concrete examples, jpy 150000 stays 150000
(bucketed to 25 against the jpy thresholds) and usd 100000 minor units
becomes 1000 major units (bucketed to 25). -/
theorem c5_zero_decimal_normalization (a : Int) :
    normalizeAmount "jpy" a = (a : ℚ) ∧
    normalizeAmount "usd" a = (a : ℚ) / 100 ∧
    (∀ c : String, c ∈ zeroDecimalCurrencies → normalizeAmount c a = (a : ℚ)) ∧
    (∀ c : String, c ∉ zeroDecimalCurrencies → normalizeAmount c a = (a : ℚ) / 100) ∧
    normalizeAmount "usd" 100000 = 1000 ∧
    amountScoreOf "jpy" 150000 = 25 ∧
    amountScoreOf "usd" 100000 = 25 := by
  have htj : amountThresholds "jpy" = ⟨100000, 50000, 20000, 10000, 5000⟩ := by
    rw [amountThresholds, if_pos (by decide)]
  have htu : amountThresholds "usd" = ⟨1000, 500, 200, 100, 50⟩ := by
    rw [amountThresholds, if_neg (by decide), if_neg (by decide), if_neg (by decide)]
  have hnj : normalizeAmount "jpy" (150000 : Int) = ((150000 : Int) : ℚ) := by
    rw [normalizeAmount, if_pos (by decide)]
  have hnu : normalizeAmount "usd" (100000 : Int) = ((100000 : Int) : ℚ) / 100 := by
    rw [normalizeAmount, if_neg (by decide)]
  refine ⟨?_, ?_, fun c hc => ?_, fun c hc => ?_, ?_, ?_, ?_⟩
  · rw [normalizeAmount, if_pos (by decide)]
  · rw [normalizeAmount, if_neg (by decide)]
  · rw [normalizeAmount, if_pos hc]
  · rw [normalizeAmount, if_neg hc]
  · rw [hnu]; norm_num
  · rw [amountScoreOf, htj, hnj]; unfold bucketAmount; norm_num
  · rw [amountScoreOf, htu, hnu]; unfold bucketAmount; norm_num

/-- Witness for C5 at the claim's concrete currencies. -/
theorem c5_zero_decimal_normalization_witness :
    normalizeAmount "jpy" 150000 = ((150000 : Int) : ℚ) ∧
    normalizeAmount "eur" 100000 = ((100000 : Int) : ℚ) / 100 :=
  ⟨(c5_zero_decimal_normalization 150000).2.2.1 "jpy" (by decide),
   (c5_zero_decimal_normalization 100000).2.2.2.1 "eur" (by decide)⟩

/-! C7: the sort of the scored rows. -/

lemma rowLE_trans : ∀ (a b c : CsvRow), rowLE a b → rowLE b c → rowLE a c := by
  intro a b c h1 h2
  simp only [rowLE, decide_eq_true_eq] at *
  omega

lemma rowLE_total : ∀ (a b : CsvRow), rowLE a b || rowLE b a := by
  intro a b
  simp only [rowLE, Bool.or_eq_true, decide_eq_true_eq]
  omega

/-- Rows carrying only an id and a score, for the concrete sorting example. -/
def c7Row (id : String) (s : Int) : CsvRow := ⟨id, "", "", none, s, "", "", ""⟩

/-- The input batch of the claim's example: provider order a, b, c, d with
scores 30, 90, 90, 10. -/
def c7Input : List CsvRow :=
  [c7Row "a" 30, c7Row "b" 90, c7Row "c" 90, c7Row "d" 10]

/-- C7 counterexample: sorting scores [30, 90, 90, 10] descending (stably)
yields [90, 90, 30, 10] — with the two 90s, b before c, in provider order —
and not the [90, 90, 10, 30] order the claim predicts. -/
theorem c7_counterexample :
    (sortRows c7Input).map CsvRow.risk_score = [90, 90, 30, 10] ∧
    (sortRows c7Input).map CsvRow.id = ["b", "c", "a", "d"] ∧
    (sortRows c7Input).map CsvRow.risk_score ≠ [90, 90, 10, 30] := by
  refine ⟨?_, ?_, ?_⟩ <;>
    simp [sortRows, c7Input, c7Row, List.mergeSort, List.splitInTwo, List.merge, rowLE]

/-- C7 amended: the pipeline's sort is a stable descending sort on the risk
score — the output is a permutation of the input, pairwise descending in
`risk_score`, and for every score value the subsequence of rows holding that
score is exactly the input's subsequence, in the provider-returned order. -/
theorem c7_sort_descending_stable (rows : List CsvRow) :
    (sortRows rows).Perm rows ∧
    (sortRows rows).Pairwise (fun a b => b.risk_score ≤ a.risk_score) ∧
    ∀ k : Int, (sortRows rows).filter (fun r => r.risk_score == k) =
      rows.filter (fun r => r.risk_score == k) := by
  refine ⟨List.mergeSort_perm rows rowLE, ?_, ?_⟩
  · have h := List.sorted_mergeSort rowLE_trans rowLE_total rows
    exact h.imp fun hab => by simpa [rowLE] using hab
  · intro k
    have hpair : (rows.filter fun r => r.risk_score == k).Pairwise
        (fun a b => rowLE a b = true) := by
      apply List.pairwise_of_forall_mem_list
      intro a ha b hb
      rw [List.mem_filter] at ha hb
      have ha2 := of_decide_eq_true ha.2
      have hb2 := of_decide_eq_true hb.2
      simp only [rowLE, decide_eq_true_eq]
      omega
    have h1 : List.Sublist (rows.filter fun r => r.risk_score == k) (sortRows rows) :=
      List.sublist_mergeSort rowLE_trans rowLE_total hpair (List.filter_sublist rows)
    have h2 : List.Sublist (rows.filter fun r => r.risk_score == k)
        ((sortRows rows).filter fun r => r.risk_score == k) := by
      have h3 := h1.filter fun r => r.risk_score == k
      rwa [List.filter_filter, show (fun (a : CsvRow) => (a.risk_score == k) &&
        (a.risk_score == k)) = fun r => r.risk_score == k from funext fun a =>
          Bool.and_self _] at h3
    have hlen : ((sortRows rows).filter fun r => r.risk_score == k).length =
        ((rows.filter fun r => r.risk_score == k)).length :=
      ((List.mergeSort_perm rows rowLE).filter _).length_eq
    exact (h2.eq_of_length hlen.symm).symm

/-! C8: the evaluation instant is sampled per record, not once per run. -/

/-- Per-record clock whose first sample is one millisecond before the one-day
customer-age boundary and whose second sample is exactly on it. -/
def c8Clock : Nat → Int := fun i => if i = 0 then 86399999 else 86400000

/-- Concrete dispute (charge created at epoch) scored twice in the C8 run. -/
def c8Dispute : Dispute :=
  ⟨"dp_8", 10000, some "usd", some "fraudulent", 0, some ⟨0, none⟩⟩

/-- Shape of the successful branch of `buildRow`: with a charge and a
currency present, the produced row's score is the scorer's capped sum. -/
lemma buildRow_ok (nowMs : Int) (d : Dispute) (ch : Charge) (cur : String)
    (hch : d.charge = some ch) (hcur : d.currency = some cur) :
    ∃ row : CsvRow, buildRow nowMs d = .ok row ∧
      row.risk_score = min (reasonScoreOf d.reason +
        amountScoreOf (jsToLowerCase cur) d.amount +
        customerScoreOf nowMs ch.created + timingScoreOf d.created ch.created +
        paymentScoreOf ch.payment_method_details) 100 := by
  obtain ⟨id, amount, currency, reason, created, charge⟩ := d
  simp only at hch hcur
  subst hch
  subst hcur
  exact ⟨_, rfl, rfl⟩

/-- C8 counterexample: two identical records in one `generateCSV` run receive
different scores (78 then 73) because `Date.now()` is sampled inside
`calculateRiskScore`, i.e. once per record, and the second sample crosses
the one-day customer-age band boundary. -/
theorem c8_counterexample :
    ∃ row0 row1 : CsvRow,
      scoreRows c8Clock 0 [c8Dispute, c8Dispute] = .ok [row0, row1] ∧
      row0.risk_score = 78 ∧ row1.risk_score = 73 := by
  have hlow : jsToLowerCase "usd" = "usd" := by decide
  have hr : reasonScoreOf (some "fraudulent") = 30 := by decide
  have ha : amountScoreOf "usd" 10000 = 10 := by
    have htu : amountThresholds "usd" = ⟨1000, 500, 200, 100, 50⟩ := by
      rw [amountThresholds, if_neg (by decide), if_neg (by decide), if_neg (by decide)]
    have hnu : normalizeAmount "usd" (10000 : Int) = ((10000 : Int) : ℚ) / 100 := by
      rw [normalizeAmount, if_neg (by decide)]
    rw [amountScoreOf, htu, hnu]
    unfold bucketAmount
    norm_num
  have hc0 : customerScoreOf 86399999 0 = 20 := by
    unfold customerScoreOf accountAgeDays
    norm_num
  have hc1 : customerScoreOf 86400000 0 = 15 := by
    unfold customerScoreOf accountAgeDays
    norm_num
  have ht : timingScoreOf 0 0 = 15 := by
    unfold timingScoreOf daysBetween
    norm_num
  have hp : paymentScoreOf none = 3 := by decide
  obtain ⟨row0, hb0, hs0⟩ := buildRow_ok 86399999 c8Dispute ⟨0, none⟩ "usd" rfl rfl
  obtain ⟨row1, hb1, hs1⟩ := buildRow_ok 86400000 c8Dispute ⟨0, none⟩ "usd" rfl rfl
  have hs0e : row0.risk_score = 78 := by
    rw [hs0]
    simp only [c8Dispute, hlow]
    rw [hr, ha, hc0, ht, hp]
    omega
  have hs1e : row1.risk_score = 73 := by
    rw [hs1]
    simp only [c8Dispute, hlow]
    rw [hr, ha, hc1, ht, hp]
    omega
  refine ⟨row0, row1, ?_, hs0e, hs1e⟩
  have e0 : c8Clock 0 = 86399999 := rfl
  have e1 : c8Clock 1 = 86400000 := rfl
  simp only [scoreRows, e0, e1, hb0, hb1]

/-- C8 amended: each produced row is a pure function of the record and of the
`Date.now()` sample taken for that record's own `calculateRiskScore`
invocation — deterministic given that per-record sample, with no
re-sampling per factor, but sampled per record rather than once per run. -/
theorem c8_now_sampled_per_record (clock : Nat → Int) (ds : List Dispute)
    (rows : List CsvRow) (k : Nat) (h : scoreRows clock k ds = .ok rows) :
    ∀ i d, ds[i]? = some d → rows[i]? = (buildRow (clock (k + i)) d).toOption := by
  induction ds generalizing k rows with
  | nil =>
    intro i d hd
    simp at hd
  | cons d0 ds ih =>
    intro i d hd
    rw [scoreRows] at h
    cases hb : buildRow (clock k) d0 with
    | error e => rw [hb] at h; simp at h
    | ok row =>
      rw [hb] at h
      cases hr : scoreRows clock (k + 1) ds with
      | error e => rw [hr] at h; simp at h
      | ok rest =>
        rw [hr] at h
        simp only [Except.ok.injEq] at h
        subst h
        cases i with
        | zero =>
          simp only [List.getElem?_cons_zero, Option.some_inj] at hd
          subst hd
          simp [hb, Except.toOption]
        | succ i =>
          simp only [List.getElem?_cons_succ] at hd ⊢
          rw [show k + (i + 1) = (k + 1) + i from by omega]
          exact ih rest (k + 1) hr i d hd

/-- Chargeless concrete dispute (fallback branch) for the C8 witness. -/
def c8FallbackDispute : Dispute := ⟨"dp_8b", 200, some "jpy", none, 0, none⟩

/-- The rows of a concrete one-record run, extracted for the witness. -/
def c8Rows : List CsvRow :=
  ((scoreRows c8Clock 0 [c8FallbackDispute]).toOption).getD []

/-- Witness for the amended C8 statement at a concrete one-record run. -/
theorem c8_now_sampled_per_record_witness :
    c8Rows[0]? = (buildRow (c8Clock (0 + 0)) c8FallbackDispute).toOption :=
  c8_now_sampled_per_record c8Clock [c8FallbackDispute] c8Rows 0 rfl 0 c8FallbackDispute rfl

end StrDisputes
